import Mathlib

/-! Formal model of the blog-server backend in src/server.js.

The four Mongo collections (Users, Blogs, Comments, Notifications) are lists of
documents; the Mongoose store primitives findOneAndUpdate, findOneAndDelete,
deleteMany act on the first matching document (respectively all matching ones).
Each HTTP handler of server.js that the claims mention is translated into a pure
state transformer on the whole database value. -/

namespace BlogServer

/-- Activity counters denormalized on a Blog document (Schema/Blog.js defaults 0). -/
structure Activity where
  total_likes : Int := 0
  total_reads : Int := 0
  total_comments : Int := 0
  total_parent_comments : Int := 0
deriving DecidableEq

/-- Modelled from the spec: Schema/User.js is not under src. Per spec section 3 a
User carries denormalized account counters and a field named blogs holding the
owned Blog ids; server.js itself pushes onto the path "blogs" in /create-blog. -/
structure UserDoc where
  _id : Nat
  blogs : List Nat := []
  total_posts : Int := 0
  total_reads : Int := 0
deriving DecidableEq

/-- A Blog document: internal id, slug (blog_id), author, set of comment ids and
activity counters. Content fields not needed by the claims are omitted. -/
structure BlogDoc where
  _id : Nat
  blog_id : String := ""
  author : Nat := 0
  comments : List Nat := []
  activity : Activity := {}
  draft : Bool := false
deriving DecidableEq

/-- A Comment document, per Schema/Comment.js usage in server.js. -/
structure CommentDoc where
  _id : Nat
  blog_id : Nat := 0
  blog_author : Nat := 0
  comment : String := ""
  commented_by : Nat := 0
  parent : Option Nat := none
  isReply : Bool := false
  children : List Nat := []
deriving DecidableEq

/-- Notification type: the three values used by server.js. -/
inductive NotifType where
  | like
  | comment
  | reply
deriving DecidableEq

/-- A Notification document. -/
structure NotificationDoc where
  _id : Nat
  type : NotifType
  blog : Nat := 0
  notification_for : Nat := 0
  user : Nat := 0
  comment : Option Nat := none
  replied_on_comment : Option Nat := none
  reply : Option Nat := none
  seen : Bool := false
deriving DecidableEq

/-- The document store: the four collections. -/
structure DB where
  users : List UserDoc := []
  blogs : List BlogDoc := []
  comments : List CommentDoc := []
  notifications : List NotificationDoc := []
deriving DecidableEq

/-- Mongo findOneAndUpdate: rewrite the first document matching the filter. -/
def updateFirst {α : Type} (p : α → Bool) (f : α → α) : List α → List α
  | [] => []
  | x :: xs => if p x then f x :: xs else x :: updateFirst p f xs

/-- Mongo findOneAndDelete: remove the first document matching the filter. -/
def removeFirst {α : Type} (p : α → Bool) : List α → List α
  | [] => []
  | x :: xs => if p x then xs else x :: removeFirst p xs

/-- All comment documents carrying a given id, in collection order. -/
def docsById (i : Nat) (cs : List CommentDoc) : List CommentDoc :=
  cs.filter (fun c => c._id = i)

/-- Number of comment documents carrying a given id. -/
def countById (i : Nat) (cs : List CommentDoc) : Nat :=
  (docsById i cs).length

/-- Projection: total_comments of the first blog with internal id B. -/
def tcOf (B : Nat) (db : DB) : Option Int :=
  (db.blogs.find? (fun b => b._id = B)).map (fun b => b.activity.total_comments)

/-- Projection: total_parent_comments of the first blog with internal id B. -/
def tpcOf (B : Nat) (db : DB) : Option Int :=
  (db.blogs.find? (fun b => b._id = B)).map (fun b => b.activity.total_parent_comments)

/-- Projection: total_likes of the first blog with internal id B. -/
def tlOf (B : Nat) (db : DB) : Option Int :=
  (db.blogs.find? (fun b => b._id = B)).map (fun b => b.activity.total_likes)

/-- Outcome of POST /create-blog input validation (server.js lines 444-464).
A rejected value models the early res.status(403) returns. -/
inductive CreateBlogCheck where
  | rejected (msg : String)
  | accepted
deriving DecidableEq

/-- POST /create-blog validation, lines 444-464 of server.js. The argument draft
models Boolean(draft): a missing draft field is falsy in the source, hence false
here; blocks stands for content.blocks. -/
def createBlogValidation (title desc banner : String) (blocks : List String)
    (tags : List String) (draft : Bool) : CreateBlogCheck :=
  if title.length = 0 then
    CreateBlogCheck.rejected "You must provide a title"
  else if !draft then
    if desc.length = 0 || desc.length > 200 then
      CreateBlogCheck.rejected "You must provide a blog description under 200 characters"
    else if banner.length = 0 then
      CreateBlogCheck.rejected "You must provide blog banner to publish it"
    else if blocks.length = 0 then
      CreateBlogCheck.rejected "There must be some blog content to publish it"
    else if tags.length = 0 || tags.length > 10 then
      CreateBlogCheck.rejected "Provide tags to publish it, max 10 tags"
    else CreateBlogCheck.accepted
  else CreateBlogCheck.accepted

/-- Filter used by Notification.findOneAndDelete in POST /like-blog:
user equals the acting user, blog equals the blog id, type is like. -/
def likeNotifPred (user_id blog : Nat) : NotificationDoc → Bool :=
  fun n => decide (n.user = user_id) && decide (n.blog = blog)
    && decide (n.type = NotifType.like)

/-- POST /like-blog, lines 533-563 of server.js. isLikedByUser is the boolean the
client sends; in the source the increment is computed by the JS expression
(not isLikedByUser) then 1 else (isLikedByUser greater than 0 then -1 else 0),
which on a boolean coerces true to 1, hence -1. A none result models the
TypeError thrown when the blog is absent (blog.author on null); in that case the
like notification is not created but the counter update was already issued. -/
def likeBlog (db : DB) (user_id _id : Nat) (isLikedByUser : Bool)
    (newNotificationId : Nat) : Option Bool × DB :=
  let incrementVal : Int := if !isLikedByUser then 1 else -1
  let bump : BlogDoc → BlogDoc := fun b =>
    { b with
      activity :=
        { b.activity with
          total_likes := b.activity.total_likes + incrementVal } }
  let db1 : DB := { db with blogs := updateFirst (fun b => b._id = _id) bump db.blogs }
  if !isLikedByUser then
    match db1.blogs.find? (fun b => b._id = _id) with
    | none => (none, db1)
    | some blog =>
      let likeDoc : NotificationDoc :=
        { _id := newNotificationId, type := NotifType.like, blog := _id,
          notification_for := blog.author, user := user_id }
      (some true, { db1 with notifications := db1.notifications ++ [likeDoc] })
  else
    let ns := removeFirst (likeNotifPred user_id _id) db1.notifications
    (some false, { db1 with notifications := ns })

/-- Result of POST /add-comment: a 403 validation rejection, a TypeError crash
(replying_to names no comment, so replyingToCommentDoc is null and reading
commented_by throws; no response is sent), or the 200 payload. -/
inductive AddCommentOutcome where
  | validationError (msg : String)
  | crashed
  | ok (commentId : Nat)
deriving DecidableEq

/-- POST /add-comment, lines 579-640 of server.js. _id is the blog internal id;
newCommentId and newNotificationId are the store-generated ids of the inserted
documents. Write order follows the source: insert the comment, update the blog
(push onto comments, increment total_comments by 1 and total_parent_comments by
1 only when not replying), then for a reply push the new id onto the parent
children, optionally backfill reply on the prior notification, and finally
insert the new notification. -/
def addComment (db : DB) (user_id _id : Nat) (comment : String) (blog_author : Nat)
    (replying_to notification_id : Option Nat) (newCommentId newNotificationId : Nat) :
    AddCommentOutcome × DB :=
  if comment.length = 0 then
    (AddCommentOutcome.validationError "You must write something to leave a comment", db)
  else
    let commentDoc : CommentDoc :=
      { _id := newCommentId, blog_id := _id, blog_author := blog_author,
        comment := comment, commented_by := user_id,
        parent := replying_to, isReply := replying_to.isSome, children := [] }
    let dbA : DB := { db with comments := db.comments ++ [commentDoc] }
    let bumpBlog : BlogDoc → BlogDoc := fun b =>
      { b with
        comments := b.comments ++ [newCommentId],
        activity :=
          { b.activity with
            total_comments := b.activity.total_comments + 1,
            total_parent_comments := b.activity.total_parent_comments +
              (if replying_to.isSome then 0 else 1) } }
    let dbB : DB := { dbA with blogs := updateFirst (fun b => b._id = _id) bumpBlog dbA.blogs }
    match replying_to with
    | none =>
      (AddCommentOutcome.ok newCommentId,
        { dbB with notifications := dbB.notifications ++
          [{ _id := newNotificationId, type := NotifType.comment, blog := _id,
             notification_for := blog_author, user := user_id,
             comment := some newCommentId }] })
    | some p =>
      match dbB.comments.find? (fun cdoc => cdoc._id = p) with
      | none => (AddCommentOutcome.crashed, dbB)
      | some parentDoc =>
        let pushChild : CommentDoc → CommentDoc := fun cdoc =>
          { cdoc with children := cdoc.children ++ [newCommentId] }
        let dbC : DB :=
          { dbB with comments := updateFirst (fun cdoc => cdoc._id = p) pushChild dbB.comments }
        let setReply : NotificationDoc → NotificationDoc := fun n =>
          { n with reply := some newCommentId }
        let dbD : DB :=
          match notification_id with
          | some nid =>
            { dbC with notifications := updateFirst (fun n => n._id = nid) setReply dbC.notifications }
          | none => dbC
        (AddCommentOutcome.ok newCommentId,
          { dbD with notifications := dbD.notifications ++
            [{ _id := newNotificationId, type := NotifType.reply, blog := _id,
               notification_for := parentDoc.commented_by, user := user_id,
               comment := some newCommentId, replied_on_comment := some p }] })

/-- Per-node bookkeeping of deleteComments (server.js lines 692-705), applied
after the comment document itself has been removed: pull the id from the parent
children, delete the first notification whose comment field is this id, clear
the reply field on the first notification carrying it, and update the owning
blog. In the source the blog update object is
    pull comments, inc total_comments by -1, plus the bare path
    "activity.total_parent_comments": (comment.parent then 0 else -1)
where the last key sits outside the inc operator, so Mongoose casts it to a set
operation: total_parent_comments is OVERWRITTEN with 0 or -1 instead of being
decremented. The model reproduces that effective behavior. -/
def deleteOneComment (c : CommentDoc) (db : DB) : DB :=
  let pullChild : CommentDoc → CommentDoc := fun d =>
    { d with children := d.children.filter (fun x => x ≠ c._id) }
  let db1 : DB :=
    match c.parent with
    | some p => { db with comments := updateFirst (fun d => d._id = p) pullChild db.comments }
    | none => db
  let db2 : DB :=
    { db1 with notifications := removeFirst (fun n => n.comment = some c._id) db1.notifications }
  let clearReply : NotificationDoc → NotificationDoc := fun n => { n with reply := none }
  let db3 : DB :=
    { db2 with notifications :=
        updateFirst (fun n => n.reply = some c._id) clearReply db2.notifications }
  let blogUpd : BlogDoc → BlogDoc := fun b =>
    { b with
      comments := b.comments.filter (fun x => x ≠ c._id),
      activity :=
        { b.activity with
          total_comments := b.activity.total_comments - 1,
          total_parent_comments := if c.parent.isSome then 0 else -1 } }
  { db3 with blogs := updateFirst (fun b => b._id = c.blog_id) blogUpd db3.blogs }

/-- The recursive cascade of deleteComments (server.js lines 689-717) with an
explicit fuel bound on recursion depth: find the comment, remove it, run the
per-node bookkeeping, then recurse into every stored child id. -/
def deleteCommentsFuel : Nat → Nat → DB → DB
  | 0, _, db => db
  | fuel + 1, _id, db =>
    match db.comments.find? (fun c => c._id = _id) with
    | none => db
    | some c =>
      let db1 : DB := { db with comments := removeFirst (fun d => d._id = _id) db.comments }
      let db2 : DB := deleteOneComment c db1
      c.children.foldl (fun acc childId => deleteCommentsFuel fuel childId acc) db2

/-- deleteComments of server.js: the recursion depth of a stored comment tree is
bounded by the number of comment documents, so that much fuel always suffices. -/
def deleteComments (_id : Nat) (db : DB) : DB :=
  deleteCommentsFuel db.comments.length _id db

/-- Folding the cascade over a list of comment ids, as done over children. -/
def delList (fuel : Nat) (ids : List Nat) (db : DB) : DB :=
  ids.foldl (fun acc childId => deleteCommentsFuel fuel childId acc) db

/-- Pagination offset used by POST /notifications (lines 756-770) and
POST /user-written-blogs (lines 816-827): skipDocs is (page - 1) * maxLimit,
reduced by deletedDocCount when that field is present and truthy. -/
def paginationSkip (page maxLimit : Int) (deletedDocCount : Option Int) : Int :=
  let skipDocs := (page - 1) * maxLimit
  match deletedDocCount with
  | some d => if d ≠ 0 then skipDocs - d else skipDocs
  | none => skipDocs

/-- POST /notifications offset: maxLimit is 10 there. -/
def notificationsSkipDocs (page : Int) (deletedDocCount : Option Int) : Int :=
  paginationSkip page 10 deletedDocCount

/-- POST /user-written-blogs offset: maxLimit is 5 there. -/
def userWrittenBlogsSkipDocs (page : Int) (deletedDocCount : Option Int) : Int :=
  paginationSkip page 5 deletedDocCount

/-- Result of POST /delete-blog: the permission rejection, the TypeError crash on
a missing blog (blog._id on null), or the 200 status. -/
inductive DeleteBlogOutcome where
  | forbidden
  | crashed
  | done
deriving DecidableEq

/-- POST /delete-blog, lines 855-880 of server.js. After deleting the blog by
slug it deletes every notification and comment of that blog, then issues
  User.findOneAndUpdate(filter _id = user_id, pull from path "blog",
                        inc account_info.total_posts by -1).
The pulled path "blog" is not a field of the User schema (the field is "blogs",
the very path /create-blog pushes onto), so Mongoose strict mode drops that part
of the update and only the total_posts decrement takes effect; the update is
keyed on the calling user, not on the blog author. -/
def deleteBlog (db : DB) (user_id : Nat) (isAdmin : Bool) (blog_id : String) :
    DeleteBlogOutcome × DB :=
  if isAdmin then
    match db.blogs.find? (fun b => b.blog_id = blog_id) with
    | none => (DeleteBlogOutcome.crashed, db)
    | some blog =>
      let db1 : DB := { db with blogs := removeFirst (fun b => b.blog_id = blog_id) db.blogs }
      let ns := db1.notifications.filter (fun n => n.blog ≠ blog._id)
      let db2 : DB := { db1 with notifications := ns }
      let cs := db2.comments.filter (fun c => c.blog_id ≠ blog._id)
      let db3 : DB := { db2 with comments := cs }
      let decPosts : UserDoc → UserDoc := fun u => { u with total_posts := u.total_posts - 1 }
      (DeleteBlogOutcome.done,
        { db3 with users := updateFirst (fun u => u._id = user_id) decPosts db3.users })
  else (DeleteBlogOutcome.forbidden, db)

/-- A finite comment tree: a node id together with the trees of its replies.
Used to state what a stored comment subtree looks like in the database. -/
inductive CTree where
  | node (i : Nat) (ts : List CTree)

/-- The id at the root of a comment tree. -/
def CTree.root : CTree → Nat
  | .node i _ => i

/-- The root ids of a list of trees; a stored children field holds exactly these. -/
def CTree.rootsOf (ts : List CTree) : List Nat :=
  ts.map CTree.root

mutual
/-- Number of nodes of a comment tree (the comment plus all its descendants). -/
def CTree.size : CTree → Nat
  | .node _ ts => 1 + CTree.sizeList ts
/-- Total number of nodes of a list of comment trees. -/
def CTree.sizeList : List CTree → Nat
  | [] => 0
  | t :: ts => CTree.size t + CTree.sizeList ts
end

mutual
/-- All node ids of a comment tree, root first. -/
def CTree.ids : CTree → List Nat
  | .node i ts => i :: CTree.idsList ts
/-- All node ids of a list of comment trees. -/
def CTree.idsList : List CTree → List Nat
  | [] => []
  | t :: ts => CTree.ids t ++ CTree.idsList ts
end

mutual
/-- The tree t is stored in the comment collection cs for the blog with internal
id B: every node id occurs on exactly one document, that document lists exactly
the child roots in children and carries blog_id B, recursively. -/
def subtreeStored (B : Nat) (cs : List CommentDoc) : CTree → Bool
  | .node i ts =>
    match docsById i cs with
    | [d] =>
      decide (d.children = CTree.rootsOf ts) && decide (d.blog_id = B)
        && forestStored B cs ts
    | _ => false
/-- Every tree of the list is stored, as in subtreeStored. -/
def forestStored (B : Nat) (cs : List CommentDoc) : List CTree → Bool
  | [] => true
  | t :: ts => subtreeStored B cs t && forestStored B cs ts
end

/-- Effect summary of deleting a set S of comment ids (k of them) from db,
yielding db2: k comment documents disappear; documents with ids outside S whose
children avoid S are untouched; documents with ids in S are gone; and the blog
with internal id B has its total_comments decremented by k. -/
def delEffects (B : Nat) (S : List Nat) (k : Nat) (db db2 : DB) : Prop :=
  (db2.comments.length + k = db.comments.length)
  ∧ (∀ q, q ∉ S → (∀ d ∈ docsById q db.comments, ∀ x ∈ d.children, x ∉ S) →
      docsById q db2.comments = docsById q db.comments)
  ∧ (∀ i ∈ S, docsById i db2.comments = [])
  ∧ (tcOf B db2 = (tcOf B db).map (fun v => v - (k : Int)))

/-! Concrete databases used as witnesses and as failing inputs. -/

/-- A blog with two stored comments: 10 is top-level with single reply 11.
total_comments is 2 and total_parent_comments is 5 (an arbitrary prior value). -/
def exDb1 : DB :=
  { blogs := [{ _id := 1, blog_id := "b", author := 2, comments := [10, 11],
                activity := { total_comments := 2, total_parent_comments := 5 } }],
    comments := [{ _id := 10, blog_id := 1, blog_author := 2, comment := "a",
                   commented_by := 3, children := [11] },
                 { _id := 11, blog_id := 1, blog_author := 2, comment := "b",
                   commented_by := 4, parent := some 10, isReply := true }] }

/-- A blog with a three-node comment chain 10 - 11 - 12 (comment, reply,
reply to the reply), total_comments 7, plus an unrelated comment 13. -/
def exDb2 : DB :=
  { blogs := [{ _id := 1, blog_id := "b", author := 2, comments := [10, 11, 12, 13],
                activity := { total_comments := 7, total_parent_comments := 3 } }],
    comments := [{ _id := 10, blog_id := 1, blog_author := 2, comment := "a",
                   commented_by := 3, children := [11] },
                 { _id := 13, blog_id := 1, blog_author := 2, comment := "d",
                   commented_by := 3, children := [] },
                 { _id := 11, blog_id := 1, blog_author := 2, comment := "b",
                   commented_by := 4, parent := some 10, isReply := true, children := [12] },
                 { _id := 12, blog_id := 1, blog_author := 2, comment := "c",
                   commented_by := 3, parent := some 11, isReply := true }] }

/-- The chain 10 - 11 - 12 of exDb2 as a tree value. -/
def exTree2 : CTree :=
  CTree.node 10 [CTree.node 11 [CTree.node 12 []]]

/-- A database for the notification claims: leaf comment 5 on blog 1, one
notification (21) created for comment 5, one notification (22) created for some
other comment 3 whose reply field points at comment 5, and one unrelated like
notification (23). -/
def exDb3 : DB :=
  { blogs := [{ _id := 1, blog_id := "b", author := 2, comments := [3, 5],
                activity := { total_comments := 2, total_parent_comments := 2 } }],
    comments := [{ _id := 3, blog_id := 1, blog_author := 2, comment := "x",
                   commented_by := 3 },
                 { _id := 5, blog_id := 1, blog_author := 2, comment := "y",
                   commented_by := 4 }],
    notifications := [{ _id := 21, type := NotifType.comment, blog := 1,
                        notification_for := 2, user := 4, comment := some 5 },
                      { _id := 22, type := NotifType.comment, blog := 1,
                        notification_for := 2, user := 3, comment := some 3,
                        reply := some 5 },
                      { _id := 23, type := NotifType.like, blog := 1,
                        notification_for := 2, user := 9 }] }

/-- A database for the add-comment claims: blog 1 with one stored comment 7 by
user 6, and a prior notification 30 for that comment. -/
def exDb4 : DB :=
  { blogs := [{ _id := 1, blog_id := "b", author := 2, comments := [7],
                activity := { total_comments := 1, total_parent_comments := 1 } }],
    comments := [{ _id := 7, blog_id := 1, blog_author := 2, comment := "hi",
                   commented_by := 6 }],
    notifications := [{ _id := 30, type := NotifType.comment, blog := 1,
                        notification_for := 2, user := 6, comment := some 7 }] }

/-- A database for the like toggle claim: a single blog with 41 likes and no
like notification for the pair (user 5, blog 1). -/
def exDb5 : DB :=
  { blogs := [{ _id := 1, blog_id := "b", author := 2,
                activity := { total_likes := 41 } }],
    notifications := [{ _id := 25, type := NotifType.like, blog := 8,
                        notification_for := 2, user := 5 }] }

/-- A database for the delete-blog claim: two users where user 9 is the author
of blog 1 (listed in the blogs field of user 9), and the caller is user 2. -/
def exDb10 : DB :=
  { users := [{ _id := 2, blogs := [4], total_posts := 1 },
              { _id := 9, blogs := [1, 5], total_posts := 2 }],
    blogs := [{ _id := 1, blog_id := "slug", author := 9,
                activity := { total_comments := 1 } }],
    comments := [{ _id := 10, blog_id := 1, blog_author := 9, comment := "a",
                   commented_by := 2 }],
    notifications := [{ _id := 21, type := NotifType.like, blog := 1,
                        notification_for := 9, user := 2 }] }

/-! Theorems. First, behavior of the store primitives on lists. -/

theorem length_updateFirst {α : Type} (p : α → Bool) (f : α → α) (l : List α) :
    (updateFirst p f l).length = l.length := by
  induction l with
  | nil => rfl
  | cons a l ih =>
    unfold updateFirst
    by_cases h : p a
    · simp [h]
    · simp [h, ih]

theorem updateFirst_eq_self {α : Type} (p : α → Bool) (f : α → α) (l : List α)
    (h : ∀ a ∈ l, p a = true → f a = a) : updateFirst p f l = l := by
  induction l with
  | nil => rfl
  | cons a l ih =>
    unfold updateFirst
    by_cases ha : p a
    · simp only [ha, if_true]
      rw [h a (List.mem_cons_self a l) ha]
    · simp only [ha]
      rw [if_neg (by simp [ha])]
      rw [ih (fun b hb hpb => h b (List.mem_cons_of_mem a hb) hpb)]

theorem countP_updateFirst {α : Type} (p q : α → Bool) (f : α → α) (l : List α)
    (hf : ∀ a, q (f a) = q a) : (updateFirst p f l).countP q = l.countP q := by
  induction l with
  | nil => rfl
  | cons a l ih =>
    unfold updateFirst
    by_cases h : p a
    · simp [h, List.countP_cons, hf]
    · simp [h, List.countP_cons, ih]

theorem filter_updateFirst_of_disj {α : Type} (p q : α → Bool) (f : α → α) (l : List α)
    (hpq : ∀ a, p a = true → q a = false) (hf : ∀ a, q (f a) = q a) :
    (updateFirst p f l).filter q = l.filter q := by
  induction l with
  | nil => rfl
  | cons a l ih =>
    unfold updateFirst
    by_cases h : p a
    · have hqa : q a = false := hpq a h
      have hqfa : q (f a) = false := by rw [hf]; exact hqa
      simp [h, List.filter_cons, hqa, hqfa]
    · simp only [h, if_false, Bool.false_eq_true, if_neg (by simp [h] : ¬(p a = true))]
      simp [List.filter_cons, ih]

theorem find?_updateFirst {α : Type} (p : α → Bool) (f : α → α) (l : List α)
    (hf : ∀ a, p (f a) = p a) : (updateFirst p f l).find? p = (l.find? p).map f := by
  induction l with
  | nil => rfl
  | cons a l ih =>
    unfold updateFirst
    by_cases h : p a
    · have hpf : p (f a) = true := by rw [hf]; exact h
      simp [List.find?_cons, h, hpf]
    · have h' : p a = false := by simp [h]
      have hpf : p (f a) = false := by rw [hf]; exact h'
      simp [List.find?_cons, h', ih]

theorem mem_updateFirst {α : Type} (p : α → Bool) (f : α → α) (l : List α)
    (a : α) (ha : a ∈ l) (hpa : p a = true) (hc : l.countP p ≤ 1) :
    f a ∈ updateFirst p f l := by
  induction l with
  | nil => cases ha
  | cons b l ih =>
    unfold updateFirst
    by_cases hb : p b
    · simp only [hb, if_true]
      rcases List.mem_cons.mp ha with h | h
      · subst h
        exact List.mem_cons_self _ _
      · exfalso
        have hpos : 0 < l.countP p := List.countP_pos_iff.mpr ⟨a, h, hpa⟩
        rw [List.countP_cons_of_pos _ _ hb] at hc
        omega
    · simp only [hb, if_false]
      rw [if_neg (by simp [hb])]
      rcases List.mem_cons.mp ha with h | h
      · subst h
        exact absurd hpa (by simp [hb])
      · rw [List.countP_cons_of_neg _ _ (by simp [hb])] at hc
        exact List.mem_cons_of_mem b (ih h hc)

theorem map_updateFirst {α β : Type} (p : α → Bool) (f : α → α) (g : α → β) (l : List α)
    (hf : ∀ a, g (f a) = g a) : (updateFirst p f l).map g = l.map g := by
  induction l with
  | nil => rfl
  | cons a l ih =>
    unfold updateFirst
    by_cases h : p a
    · simp [h, hf]
    · simp [h, ih]

theorem removeFirst_of_neg {α : Type} (p : α → Bool) (l : List α)
    (h : ∀ a ∈ l, p a = false) : removeFirst p l = l := by
  induction l with
  | nil => rfl
  | cons a l ih =>
    unfold removeFirst
    rw [if_neg (by simp [h a (List.mem_cons_self a l)])]
    rw [ih (fun b hb => h b (List.mem_cons_of_mem a hb))]

theorem length_removeFirst_of_pos {α : Type} (p : α → Bool) (l : List α)
    (h : ∃ a ∈ l, p a = true) : (removeFirst p l).length + 1 = l.length := by
  induction l with
  | nil => simp at h
  | cons a l ih =>
    unfold removeFirst
    by_cases ha : p a
    · simp [ha]
    · rw [if_neg (by simp [ha])]
      have : ∃ b ∈ l, p b = true := by
        rcases h with ⟨b, hb, hpb⟩
        rcases List.mem_cons.mp hb with rfl | hbl
        · exact absurd hpb (by simp [ha])
        · exact ⟨b, hbl, hpb⟩
      simp only [List.length_cons]
      rw [← ih this]

theorem countP_removeFirst_self {α : Type} (p : α → Bool) (l : List α) :
    (removeFirst p l).countP p = l.countP p - 1 := by
  induction l with
  | nil => rfl
  | cons a l ih =>
    unfold removeFirst
    by_cases ha : p a
    · rw [if_pos ha, List.countP_cons_of_pos _ _ ha]
      omega
    · rw [if_neg (by simp [ha])]
      rw [List.countP_cons_of_neg _ _ (by simp [ha]),
        List.countP_cons_of_neg _ _ (by simp [ha]), ih]

theorem countP_removeFirst_le {α : Type} (p q : α → Bool) (l : List α) :
    (removeFirst p l).countP q ≤ l.countP q := by
  induction l with
  | nil => simp [removeFirst]
  | cons a l ih =>
    unfold removeFirst
    by_cases ha : p a
    · simp only [ha, if_true]
      rw [List.countP_cons]
      omega
    · rw [if_neg (by simp [ha])]
      rw [List.countP_cons, List.countP_cons]
      omega

theorem filter_removeFirst_of_disj {α : Type} (p q : α → Bool) (l : List α)
    (hpq : ∀ a, p a = true → q a = false) :
    (removeFirst p l).filter q = l.filter q := by
  induction l with
  | nil => rfl
  | cons a l ih =>
    unfold removeFirst
    by_cases ha : p a
    · simp [ha, List.filter_cons, hpq a ha]
    · rw [if_neg (by simp [ha])]
      simp [List.filter_cons, ih]

theorem mem_removeFirst_of_neg {α : Type} (p : α → Bool) (l : List α) (a : α)
    (ha : a ∈ l) (hpa : p a = false) : a ∈ removeFirst p l := by
  induction l with
  | nil => cases ha
  | cons b l ih =>
    unfold removeFirst
    by_cases hb : p b
    · simp only [hb, if_true]
      rcases List.mem_cons.mp ha with h | h
      · subst h
        exact absurd hb (by simp [hpa])
      · exact h
    · rw [if_neg (by simp [hb])]
      rcases List.mem_cons.mp ha with h | h
      · subst h
        exact List.mem_cons_self _ _
      · exact List.mem_cons_of_mem b (ih h)

theorem removeFirst_append_of_neg {α : Type} (p : α → Bool) (xs ys : List α)
    (h : ∀ a ∈ xs, p a = false) :
    removeFirst p (xs ++ ys) = xs ++ removeFirst p ys := by
  induction xs with
  | nil => rfl
  | cons a xs ih =>
    simp only [List.cons_append]
    simp only [removeFirst]
    rw [if_neg (by simp [h a (List.mem_cons_self a xs)])]
    rw [ih (fun b hb => h b (List.mem_cons_of_mem a hb))]

theorem find?_eq_head_filter {α : Type} (p : α → Bool) (l : List α) :
    l.find? p = (l.filter p).head? := by
  induction l with
  | nil => rfl
  | cons a l ih =>
    by_cases h : p a
    · rw [List.find?_cons_of_pos _ h, List.filter_cons_of_pos h]
      rfl
    · rw [List.find?_cons_of_neg _ (by simp [h]),
        List.filter_cons_of_neg (by simp [h])]
      exact ih

theorem find?_append_left {α : Type} (p : α → Bool) (l₁ l₂ : List α) (a : α)
    (h : l₁.find? p = some a) : (l₁ ++ l₂).find? p = some a := by
  induction l₁ with
  | nil => simp [List.find?] at h
  | cons b l ih =>
    by_cases hb : p b
    · simp_all [List.find?_cons, hb]
    · have hb' : p b = false := by simp [hb]
      simp only [List.find?_cons, hb'] at h
      simp [List.find?_cons, hb', ih h]

/-- C9: for every paginated listing request with page p, page size s and a
supplied deletedDocCount d, the skip offset equals (p - 1) * s - d; in
particular page 2, page size 5 (the user-written-blogs listing) and
deletedDocCount 1 give offset 4. -/
theorem paginationSkip_formula :
    (∀ page maxLimit d : Int,
      paginationSkip page maxLimit (some d) = (page - 1) * maxLimit - d)
    ∧ userWrittenBlogsSkipDocs 2 (some 1) = 4 := by
  constructor
  · intro page maxLimit d
    unfold paginationSkip
    by_cases h : d = 0
    · subst h
      simp
    · simp [h]
  · rfl

/-- C6: with a non-empty title, a payload whose description is empty or longer
than 200 characters, or whose banner is empty, or whose content blocks are
empty, or whose tag list is empty or longer than 10, is rejected by
create-blog validation when draft is false, while the identical payload with
draft true is accepted. -/
theorem createBlogValidation_draft_gate (title desc banner : String)
    (blocks tags : List String)
    (htitle : title.length ≠ 0)
    (hbad : desc.length = 0 ∨ 200 < desc.length ∨ banner.length = 0 ∨
      blocks.length = 0 ∨ tags.length = 0 ∨ 10 < tags.length) :
    (∃ msg, createBlogValidation title desc banner blocks tags false =
      CreateBlogCheck.rejected msg)
    ∧ createBlogValidation title desc banner blocks tags true =
      CreateBlogCheck.accepted := by
  constructor
  · have hne : createBlogValidation title desc banner blocks tags false ≠
        CreateBlogCheck.accepted := by
      unfold createBlogValidation
      rw [if_neg htitle]
      simp only [Bool.not_false, if_pos]
      split_ifs with h1 h2 h3 h4
      · simp
      · simp
      · simp
      · simp
      · simp only [Bool.or_eq_true, decide_eq_true_eq, not_or] at h1 h2 h3 h4
        omega
    cases hval : createBlogValidation title desc banner blocks tags false with
    | rejected msg => exact ⟨msg, rfl⟩
    | accepted => exact absurd hval hne
  · unfold createBlogValidation
    rw [if_neg htitle]
    simp

/-- Witness for C6 at a concrete payload with an empty description. -/
theorem createBlogValidation_draft_gate_witness :
    ("t".length ≠ 0 ∧ ("" : String).length = 0)
    ∧ (∃ msg, createBlogValidation "t" "" "ban" ["x"] ["tag"] false =
        CreateBlogCheck.rejected msg)
    ∧ createBlogValidation "t" "" "ban" ["x"] ["tag"] true =
      CreateBlogCheck.accepted :=
  ⟨by decide,
    createBlogValidation_draft_gate "t" "" "ban" ["x"] ["tag"] (by decide)
      (Or.inl (by decide))⟩

/-- C1 (failing input evaluation): deleting the reply 11 in exDb1 leaves
total_parent_comments at 0 instead of the prior 5 (the spec expects no change),
and deleting the childless top-level comment 3 in exDb3 leaves it at -1 instead
of 2 - 1 = 1: the source writes the bare path outside the inc operator, so the
counter is overwritten with 0 or -1 instead of decremented. -/
theorem deleteComments_overwrites_total_parent_comments :
    tpcOf 1 exDb1 = some 5
    ∧ tpcOf 1 (deleteComments 11 exDb1) = some 0
    ∧ tpcOf 1 exDb3 = some 2
    ∧ tpcOf 1 (deleteComments 3 exDb3) = some (-1) := by
  refine ⟨rfl, by decide, rfl, by decide⟩

/-- C7 (failing input evaluation): add-comment with a parent id (99) that
matches no stored comment does not report a not-found error and is not a no-op:
the comment document is inserted, the blog counter total_comments is already
incremented from 1 to 2, and then the handler crashes with a TypeError (no
response, no notification). -/
theorem addComment_missing_parent_not_a_noop :
    (addComment exDb4 8 1 "yo" 2 (some 99) none 50 60).1 = AddCommentOutcome.crashed
    ∧ ((addComment exDb4 8 1 "yo" 2 (some 99) none 50 60).2).comments.length =
      exDb4.comments.length + 1
    ∧ tcOf 1 ((addComment exDb4 8 1 "yo" 2 (some 99) none 50 60).2) = some 2
    ∧ ((addComment exDb4 8 1 "yo" 2 (some 99) none 50 60).2).notifications =
      exDb4.notifications := by
  refine ⟨by decide, by decide, by decide, by decide⟩

/-- C10: deleteBlog (as admin, blog found by slug) leaves the blogs array of
every User document unchanged — the source pulls from the path "blog", which is
not the schema field "blogs", so no blog id is ever removed from the author —
while the total_posts decrement is applied to the calling user. -/
theorem deleteBlog_keeps_user_blogs (db : DB) (user_id : Nat) (slug : String)
    (b0 : BlogDoc)
    (hb : db.blogs.find? (fun b => b.blog_id = slug) = some b0) :
    ((deleteBlog db user_id true slug).2).users.map (fun u => u.blogs) =
      db.users.map (fun u => u.blogs)
    ∧ ((deleteBlog db user_id true slug).2).users.find? (fun u => u._id = user_id) =
      (db.users.find? (fun u => u._id = user_id)).map
        (fun u => { u with total_posts := u.total_posts - 1 }) := by
  unfold deleteBlog
  rw [if_pos rfl, hb]
  dsimp only
  constructor
  · exact map_updateFirst _ _ _ _ (fun u => rfl)
  · exact find?_updateFirst _ _ _ (fun u => rfl)

/-- Witness for C10 on exDb10: the caller is user 2, the blog author is user 9;
no blogs field changes and the decrement hits user 2. -/
theorem deleteBlog_keeps_user_blogs_witness :
    exDb10.blogs.find? (fun b => b.blog_id = "slug") =
      some { _id := 1, blog_id := "slug", author := 9,
             activity := { total_comments := 1 } }
    ∧ ((deleteBlog exDb10 2 true "slug").2).users.map (fun u => u.blogs) =
      exDb10.users.map (fun u => u.blogs)
    ∧ ((deleteBlog exDb10 2 true "slug").2).users.find? (fun u => u._id = 2) =
      (exDb10.users.find? (fun u => u._id = 2)).map
        (fun u => { u with total_posts := u.total_posts - 1 }) :=
  ⟨by decide,
    deleteBlog_keeps_user_blogs exDb10 2 "slug"
      { _id := 1, blog_id := "slug", author := 9,
        activity := { total_comments := 1 } } (by decide)⟩

/-- Unfolding lemma for the like transition of POST /like-blog when the blog is
present: the counter gains 1 and a like notification for the pair is appended. -/
theorem likeBlog_on (db : DB) (user_id _id nid : Nat) (b0 : BlogDoc)
    (hb : db.blogs.find? (fun b => b._id = _id) = some b0) :
    likeBlog db user_id _id false nid =
      (some true,
        { db with
          blogs := updateFirst (fun b => b._id = _id)
            (fun b => { b with
              activity := { b.activity with
                total_likes := b.activity.total_likes + 1 } }) db.blogs,
          notifications := db.notifications ++
            [{ _id := nid, type := NotifType.like, blog := _id,
               notification_for := b0.author, user := user_id }] }) := by
  unfold likeBlog
  dsimp only
  rw [find?_updateFirst _ _ _ (by intro b; rfl), hb]
  rfl

/-- C5: toggling like on then off for a pair (user, blog) returns
activity.total_likes to its starting value and leaves zero like notifications
for that pair (assuming, as the toggle protocol guarantees, that none existed
before the first toggle). -/
theorem likeBlog_toggle (db : DB) (user_id _id nid1 nid2 : Nat) (b0 : BlogDoc)
    (hb : db.blogs.find? (fun b => b._id = _id) = some b0)
    (hn : db.notifications.countP (likeNotifPred user_id _id) = 0) :
    tlOf _id ((likeBlog ((likeBlog db user_id _id false nid1).2)
        user_id _id true nid2).2) = tlOf _id db
    ∧ (((likeBlog ((likeBlog db user_id _id false nid1).2)
        user_id _id true nid2).2)).notifications.countP
        (likeNotifPred user_id _id) = 0 := by
  rw [likeBlog_on db user_id _id nid1 b0 hb]
  constructor
  · unfold likeBlog tlOf
    dsimp only
    simp only [Bool.not_true, Bool.false_eq_true, if_false]
    rw [find?_updateFirst _ _ _ (by intro b; rfl),
      find?_updateFirst _ _ _ (by intro b; rfl), hb]
    show some (b0.activity.total_likes + 1 + -1) = some b0.activity.total_likes
    congr 1
    omega
  · have hall : ∀ a ∈ db.notifications, likeNotifPred user_id _id a = false := by
      intro a ha
      have hna := List.countP_eq_zero.mp hn a ha
      exact Bool.eq_false_iff.mpr hna
    show (removeFirst (likeNotifPred user_id _id)
        (db.notifications ++
          [{ _id := nid1, type := NotifType.like, blog := _id,
             notification_for := b0.author, user := user_id,
             comment := none, replied_on_comment := none, reply := none,
             seen := false }])).countP (likeNotifPred user_id _id) = 0
    rw [removeFirst_append_of_neg _ _ _ hall]
    have hlast : removeFirst (likeNotifPred user_id _id)
        [{ _id := nid1, type := NotifType.like, blog := _id,
           notification_for := b0.author, user := user_id,
           comment := none, replied_on_comment := none, reply := none,
           seen := false }] = [] := by
      simp [removeFirst, likeNotifPred]
    rw [hlast, List.append_nil]
    exact hn

/-- Witness for C5 on exDb5: user 5 toggles blog 1 (41 likes, no like
notification for the pair) on then off. -/
theorem likeBlog_toggle_witness :
    exDb5.blogs.find? (fun b => b._id = 1) =
      some { _id := 1, blog_id := "b", author := 2,
             activity := { total_likes := 41 } }
    ∧ exDb5.notifications.countP (likeNotifPred 5 1) = 0
    ∧ tlOf 1 ((likeBlog ((likeBlog exDb5 5 1 false 91).2) 5 1 true 92).2) =
      tlOf 1 exDb5
    ∧ (((likeBlog ((likeBlog exDb5 5 1 false 91).2) 5 1 true 92).2)).notifications.countP
        (likeNotifPred 5 1) = 0 := by
  refine ⟨by decide, by decide, ?_, ?_⟩
  · exact (likeBlog_toggle exDb5 5 1 91 92
      { _id := 1, blog_id := "b", author := 2, activity := { total_likes := 41 } }
      (by decide) (by decide)).1
  · exact (likeBlog_toggle exDb5 5 1 91 92
      { _id := 1, blog_id := "b", author := 2, activity := { total_likes := 41 } }
      (by decide) (by decide)).2

theorem getLast?_append_singleton {α : Type} (l : List α) (a : α) :
    (l ++ [a]).getLast? = some a :=
  List.getLast?_concat _

/-- C4: add-comment with non-empty text (blog present, and the parent present
when a parent id is given) pushes the new comment id onto the blog comments
set, increments activity.total_comments by 1 and activity.total_parent_comments
by 1 exactly when no parent id is given (0 for a reply), and pushes the new id
onto the parent children when a parent id is given. -/
theorem addComment_effects (db : DB) (user_id _id : Nat) (text : String)
    (blog_author : Nat) (replying_to notification_id : Option Nat)
    (newCommentId newNotificationId : Nat) (b0 : BlogDoc)
    (htext : ¬text.length = 0)
    (hb : db.blogs.find? (fun b => b._id = _id) = some b0)
    (hpar : match replying_to with
      | none => True
      | some p => (db.comments.find? (fun c => c._id = p)).isSome) :
    (addComment db user_id _id text blog_author replying_to notification_id
      newCommentId newNotificationId).1 = AddCommentOutcome.ok newCommentId
    ∧ ((addComment db user_id _id text blog_author replying_to notification_id
        newCommentId newNotificationId).2).blogs.find? (fun b => b._id = _id) =
      some { b0 with
             comments := b0.comments ++ [newCommentId],
             activity := { b0.activity with
                           total_comments := b0.activity.total_comments + 1,
                           total_parent_comments :=
                             b0.activity.total_parent_comments +
                               (if replying_to.isSome then 0 else 1) } }
    ∧ (match replying_to with
      | none => True
      | some p =>
        ((addComment db user_id _id text blog_author replying_to notification_id
            newCommentId newNotificationId).2).comments.find? (fun c => c._id = p) =
          (db.comments.find? (fun c => c._id = p)).map
            (fun pd => { pd with children := pd.children ++ [newCommentId] })) := by
  cases replying_to with
  | none =>
    unfold addComment
    rw [if_neg htext]
    dsimp only
    refine ⟨rfl, ?_, trivial⟩
    rw [find?_updateFirst _ _ _ (by intro b; rfl), hb]
    rfl
  | some p =>
    have hpar' : (db.comments.find? (fun c => c._id = p)).isSome = true := hpar
    obtain ⟨pd, hpd⟩ := Option.isSome_iff_exists.mp hpar'
    unfold addComment
    rw [if_neg htext]
    dsimp only
    rw [find?_append_left _ _ _ _ hpd]
    dsimp only
    cases notification_id with
    | none =>
      refine ⟨rfl, ?_, ?_⟩
      · rw [find?_updateFirst _ _ _ (by intro b; rfl), hb]
        rfl
      · rw [find?_updateFirst _ _ _ (by intro c; rfl), find?_append_left _ _ _ _ hpd, hpd]
    | some nid =>
      refine ⟨rfl, ?_, ?_⟩
      · rw [find?_updateFirst _ _ _ (by intro b; rfl), hb]
        rfl
      · rw [find?_updateFirst _ _ _ (by intro c; rfl), find?_append_left _ _ _ _ hpd, hpd]

/-- Witness for C4 on exDb4: user 8 replies to comment 7 on blog 1. -/
theorem addComment_effects_witness :
    (¬("yo".length = 0)
      ∧ exDb4.blogs.find? (fun b => b._id = 1) =
        some { _id := 1, blog_id := "b", author := 2, comments := [7],
               activity := { total_comments := 1, total_parent_comments := 1 } }
      ∧ (exDb4.comments.find? (fun c => c._id = 7)).isSome = true)
    ∧ (addComment exDb4 8 1 "yo" 2 (some 7) none 50 60).1 = AddCommentOutcome.ok 50
    ∧ ((addComment exDb4 8 1 "yo" 2 (some 7) none 50 60).2).blogs.find?
        (fun b => b._id = 1) =
      some { _id := 1, blog_id := "b", author := 2, comments := [7, 50],
             activity := { total_comments := 2, total_parent_comments := 1 } }
    ∧ ((addComment exDb4 8 1 "yo" 2 (some 7) none 50 60).2).comments.find?
        (fun c => c._id = 7) =
      (exDb4.comments.find? (fun c => c._id = 7)).map
        (fun pd => { pd with children := pd.children ++ [50] }) := by
  refine ⟨⟨by decide, by decide, by decide⟩, ?_, ?_, ?_⟩
  · exact (addComment_effects exDb4 8 1 "yo" 2 (some 7) none 50 60
      { _id := 1, blog_id := "b", author := 2, comments := [7],
        activity := { total_comments := 1, total_parent_comments := 1 } }
      (by decide) (by decide) (by decide)).1
  · exact (addComment_effects exDb4 8 1 "yo" 2 (some 7) none 50 60
      { _id := 1, blog_id := "b", author := 2, comments := [7],
        activity := { total_comments := 1, total_parent_comments := 1 } }
      (by decide) (by decide) (by decide)).2.1
  · exact (addComment_effects exDb4 8 1 "yo" 2 (some 7) none 50 60
      { _id := 1, blog_id := "b", author := 2, comments := [7],
        activity := { total_comments := 1, total_parent_comments := 1 } }
      (by decide) (by decide) (by decide)).2.2

/-- C8: a reply (add-comment with a parent id, non-empty text, parent found)
creates a notification of type reply whose recipient is the parent comment
author (not necessarily the blog author) and whose replied_on_comment is the
parent id; when a prior notification id is supplied and that notification
exists, its reply field is set to the new comment id. -/
theorem addComment_reply_effects (db : DB) (user_id _id : Nat) (text : String)
    (blog_author p : Nat) (pd : CommentDoc) (notification_id : Option Nat)
    (newCommentId newNotificationId : Nat)
    (htext : ¬text.length = 0)
    (hpd : db.comments.find? (fun c => c._id = p) = some pd)
    (hprior : match notification_id with
      | none => True
      | some nid => (db.notifications.find? (fun n => n._id = nid)).isSome) :
    ((addComment db user_id _id text blog_author (some p) notification_id
        newCommentId newNotificationId).2).notifications.getLast? =
      some { _id := newNotificationId, type := NotifType.reply, blog := _id,
             notification_for := pd.commented_by, user := user_id,
             comment := some newCommentId, replied_on_comment := some p,
             reply := none, seen := false }
    ∧ (match notification_id with
      | none => True
      | some nid =>
        ((addComment db user_id _id text blog_author (some p) notification_id
            newCommentId newNotificationId).2).notifications.find?
            (fun n => n._id = nid) =
          (db.notifications.find? (fun n => n._id = nid)).map
            (fun n => { n with reply := some newCommentId })) := by
  unfold addComment
  rw [if_neg htext]
  dsimp only
  rw [find?_append_left _ _ _ _ hpd]
  dsimp only
  cases notification_id with
  | none =>
    exact ⟨getLast?_append_singleton _ _, trivial⟩
  | some nid =>
    have hp2 : (db.notifications.find? (fun n => n._id = nid)).isSome = true := hprior
    obtain ⟨nd, hnd⟩ := Option.isSome_iff_exists.mp hp2
    refine ⟨getLast?_append_singleton _ _, ?_⟩
    dsimp only
    have h1 : (updateFirst (fun n => n._id = nid)
        (fun n => { n with reply := some newCommentId }) db.notifications).find?
        (fun n => n._id = nid) = some { nd with reply := some newCommentId } := by
      rw [find?_updateFirst _ _ _ (by intro n; rfl), hnd]
      rfl
    rw [find?_append_left _ _ _ _ h1, hnd]
    rfl

/-- Witness for C8 on exDb4: user 8 replies to comment 7 (written by user 6) on
blog 1 (authored by user 2), supplying prior notification 30; the reply
notification goes to user 6 and notification 30 gains reply 50. -/
theorem addComment_reply_effects_witness :
    (¬("yo".length = 0)
      ∧ exDb4.comments.find? (fun c => c._id = 7) =
        some { _id := 7, blog_id := 1, blog_author := 2, comment := "hi",
               commented_by := 6 }
      ∧ (exDb4.notifications.find? (fun n => n._id = 30)).isSome = true)
    ∧ ((addComment exDb4 8 1 "yo" 2 (some 7) (some 30) 50 60).2).notifications.getLast? =
      some { _id := 60, type := NotifType.reply, blog := 1,
             notification_for := 6, user := 8, comment := some 50,
             replied_on_comment := some 7, reply := none, seen := false }
    ∧ ((addComment exDb4 8 1 "yo" 2 (some 7) (some 30) 50 60).2).notifications.find?
        (fun n => n._id = 30) =
      (exDb4.notifications.find? (fun n => n._id = 30)).map
        (fun n => { n with reply := some 50 }) := by
  refine ⟨⟨by decide, by decide, by decide⟩, ?_, ?_⟩
  · exact (addComment_reply_effects exDb4 8 1 "yo" 2 7
      { _id := 7, blog_id := 1, blog_author := 2, comment := "hi", commented_by := 6 }
      (some 30) 50 60 (by decide) (by decide) (by decide)).1
  · exact (addComment_reply_effects exDb4 8 1 "yo" 2 7
      { _id := 7, blog_id := 1, blog_author := 2, comment := "hi", commented_by := 6 }
      (some 30) 50 60 (by decide) (by decide) (by decide)).2

/-- The per-node bookkeeping only touches notifications in two ways: delete the
first one referencing the comment in its comment field, then clear the reply
field of the first one referencing it there. -/
theorem deleteOneComment_notifications (c : CommentDoc) (db : DB) :
    (deleteOneComment c db).notifications =
      updateFirst (fun n => n.reply = some c._id) (fun n => { n with reply := none })
        (removeFirst (fun n => n.comment = some c._id) db.notifications) := by
  unfold deleteOneComment
  cases hp : c.parent <;> rfl

/-- C3: deleting a (childless) comment c removes every notification whose
comment field is c — there is at most one, since each comment creation makes
exactly one — and every notification whose reply field is c (again at most one,
and not itself about c) survives with that field cleared. -/
theorem deleteComments_notification_cleanup (db : DB) (c : Nat)
    (cd : CommentDoc) (n : NotificationDoc)
    (hc : db.comments.find? (fun x => x._id = c) = some cd)
    (hleaf : cd.children = [])
    (hcu : db.notifications.countP (fun x => x.comment = some c) ≤ 1)
    (hru : db.notifications.countP (fun x => x.reply = some c) ≤ 1)
    (hnb : ∀ x ∈ db.notifications, ¬(x.comment = some c ∧ x.reply = some c))
    (hn : n ∈ db.notifications) (hnr : n.reply = some c) :
    (deleteComments c db).notifications.countP (fun x => x.comment = some c) = 0
    ∧ { n with reply := none } ∈ (deleteComments c db).notifications := by
  have hid : cd._id = c := by
    have hpc := List.find?_some hc
    simpa using hpc
  have hmem : cd ∈ db.comments := List.mem_of_find?_eq_some hc
  have hlen : 0 < db.comments.length := List.length_pos.mpr (by
    intro hnil
    rw [hnil] at hmem
    cases hmem)
  obtain ⟨k, hk⟩ : ∃ k, db.comments.length = k + 1 :=
    ⟨db.comments.length - 1, by omega⟩
  have hN : (deleteComments c db).notifications =
      updateFirst (fun x => x.reply = some c) (fun x => { x with reply := none })
        (removeFirst (fun x => x.comment = some c) db.notifications) := by
    unfold deleteComments
    rw [hk]
    unfold deleteCommentsFuel
    rw [hc]
    dsimp only
    rw [hleaf]
    dsimp only [List.foldl_nil]
    rw [deleteOneComment_notifications, hid]
  rw [hN]
  constructor
  · rw [countP_updateFirst _ _ _ _ (by intro a; rfl)]
    have hrem := countP_removeFirst_self (fun x => x.comment = some c) db.notifications
    omega
  · apply mem_updateFirst
    · apply mem_removeFirst_of_neg _ _ _ hn
      have hcn : ¬(n.comment = some c) := by
        intro hcc
        exact hnb n hn ⟨hcc, hnr⟩
      simpa using hcn
    · simpa using hnr
    · calc (removeFirst (fun x => x.comment = some c) db.notifications).countP
            (fun x => x.reply = some c)
          ≤ db.notifications.countP (fun x => x.reply = some c) :=
            countP_removeFirst_le _ _ _
      _ ≤ 1 := hru

/-- Witness for C3 on exDb3: deleting leaf comment 5 removes notification 21
(comment field 5) and clears the reply field of notification 22, which
survives. -/
theorem deleteComments_notification_cleanup_witness :
    (exDb3.comments.find? (fun x => x._id = 5) =
        some { _id := 5, blog_id := 1, blog_author := 2, comment := "y",
               commented_by := 4 }
      ∧ exDb3.notifications.countP (fun x => x.comment = some 5) ≤ 1
      ∧ exDb3.notifications.countP (fun x => x.reply = some 5) ≤ 1
      ∧ (∀ x ∈ exDb3.notifications, ¬(x.comment = some 5 ∧ x.reply = some 5)))
    ∧ (deleteComments 5 exDb3).notifications.countP (fun x => x.comment = some 5) = 0
    ∧ { _id := 22, type := NotifType.comment, blog := 1, notification_for := 2,
        user := 3, comment := some 3, replied_on_comment := none,
        reply := none, seen := false } ∈ (deleteComments 5 exDb3).notifications := by
  refine ⟨⟨by decide, by decide, by decide, by decide⟩, ?_, ?_⟩
  · exact (deleteComments_notification_cleanup exDb3 5
      { _id := 5, blog_id := 1, blog_author := 2, comment := "y", commented_by := 4 }
      { _id := 22, type := NotifType.comment, blog := 1, notification_for := 2,
        user := 3, comment := some 3, replied_on_comment := none,
        reply := some 5, seen := false }
      (by decide) (by decide) (by decide) (by decide) (by decide)
      (by decide) (by decide)).1
  · exact (deleteComments_notification_cleanup exDb3 5
      { _id := 5, blog_id := 1, blog_author := 2, comment := "y", commented_by := 4 }
      { _id := 22, type := NotifType.comment, blog := 1, notification_for := 2,
        user := 3, comment := some 3, replied_on_comment := none,
        reply := some 5, seen := false }
      (by decide) (by decide) (by decide) (by decide) (by decide)
      (by decide) (by decide)).2

/-! Comment tree lemmas. -/

theorem size_node (i : Nat) (ts : List CTree) :
    CTree.size (CTree.node i ts) = 1 + CTree.sizeList ts := rfl

theorem ids_node (i : Nat) (ts : List CTree) :
    CTree.ids (CTree.node i ts) = i :: CTree.idsList ts := rfl

theorem idsList_cons (t : CTree) (ts : List CTree) :
    CTree.idsList (t :: ts) = t.ids ++ CTree.idsList ts := rfl

theorem sizeList_cons (t : CTree) (ts : List CTree) :
    CTree.sizeList (t :: ts) = t.size + CTree.sizeList ts := rfl

theorem rootsOf_cons (t : CTree) (ts : List CTree) :
    CTree.rootsOf (t :: ts) = t.root :: CTree.rootsOf ts := rfl

theorem size_pos : ∀ t : CTree, 1 ≤ t.size
  | .node _ ts => by rw [size_node]; omega

theorem size_le_sizeList_of_mem (u : CTree) (ts : List CTree) (hu : u ∈ ts) :
    u.size ≤ CTree.sizeList ts := by
  induction ts with
  | nil => cases hu
  | cons t ts ih =>
    rw [sizeList_cons]
    rcases List.mem_cons.mp hu with rfl | h
    · omega
    · have := ih h
      omega

theorem strongIndAux (motive : CTree → Prop)
    (h : ∀ i ts, (∀ u ∈ ts, motive u) → motive (CTree.node i ts)) :
    ∀ n t, CTree.size t ≤ n → motive t := by
  intro n
  induction n with
  | zero =>
    intro t ht
    have := size_pos t
    omega
  | succ n ih =>
    intro t ht
    cases t with
    | node i ts =>
      apply h
      intro u hu
      apply ih
      have h1 := size_le_sizeList_of_mem u ts hu
      rw [size_node] at ht
      omega

theorem strongInd (motive : CTree → Prop)
    (h : ∀ i ts, (∀ u ∈ ts, motive u) → motive (CTree.node i ts)) :
    ∀ t, motive t :=
  fun t => strongIndAux motive h t.size t (le_refl _)

theorem idsList_length (ts : List CTree)
    (hts : ∀ u ∈ ts, u.ids.length = u.size) :
    (CTree.idsList ts).length = CTree.sizeList ts := by
  induction ts with
  | nil => rfl
  | cons t ts ih =>
    rw [idsList_cons, sizeList_cons, List.length_append,
      hts t (List.mem_cons_self t ts),
      ih (fun u hu => hts u (List.mem_cons_of_mem t hu))]

theorem ids_length : ∀ t : CTree, t.ids.length = t.size := by
  apply strongInd (fun t => t.ids.length = t.size)
  intro i ts hIH
  rw [ids_node, size_node, List.length_cons, idsList_length ts hIH]
  omega

theorem root_mem_ids : ∀ t : CTree, t.root ∈ t.ids
  | .node i ts => by
    rw [ids_node]
    exact List.mem_cons_self _ _

theorem idsList_subset (u : CTree) (ts : List CTree) (hu : u ∈ ts) :
    u.ids ⊆ CTree.idsList ts := by
  induction ts with
  | nil => cases hu
  | cons t ts ih =>
    rw [idsList_cons]
    rcases List.mem_cons.mp hu with rfl | h
    · exact List.subset_append_left _ _
    · exact (ih h).trans (List.subset_append_right _ _)

theorem mem_idsList (q : Nat) (ts : List CTree) (hq : q ∈ CTree.idsList ts) :
    ∃ u ∈ ts, q ∈ u.ids := by
  induction ts with
  | nil => cases hq
  | cons t ts ih =>
    rw [idsList_cons] at hq
    rcases List.mem_append.mp hq with h | h
    · exact ⟨t, List.mem_cons_self t ts, h⟩
    · obtain ⟨u, hu, hqu⟩ := ih h
      exact ⟨u, List.mem_cons_of_mem t hu, hqu⟩

theorem forestStored_mem (B : Nat) (cs : List CommentDoc) (ts : List CTree)
    (h : forestStored B cs ts = true) (u : CTree) (hu : u ∈ ts) :
    subtreeStored B cs u = true := by
  induction ts with
  | nil => cases hu
  | cons t ts ih =>
    unfold forestStored at h
    rw [Bool.and_eq_true] at h
    rcases List.mem_cons.mp hu with rfl | hmem
    · exact h.1
    · exact ih h.2 hmem

theorem forestStored_of_forall (B : Nat) (cs : List CommentDoc) (ts : List CTree)
    (h : ∀ u ∈ ts, subtreeStored B cs u = true) : forestStored B cs ts = true := by
  induction ts with
  | nil => rfl
  | cons t ts ih =>
    unfold forestStored
    rw [Bool.and_eq_true]
    exact ⟨h t (List.mem_cons_self t ts),
      ih (fun u hu => h u (List.mem_cons_of_mem t hu))⟩

theorem subtreeStored_node (B : Nat) (cs : List CommentDoc) (i : Nat)
    (ts : List CTree) (h : subtreeStored B cs (CTree.node i ts) = true) :
    ∃ d, docsById i cs = [d] ∧ d.children = CTree.rootsOf ts ∧ d.blog_id = B
      ∧ forestStored B cs ts = true := by
  unfold subtreeStored at h
  cases hd : docsById i cs with
  | nil =>
    rw [hd] at h
    cases h
  | cons d rest =>
    cases rest with
    | nil =>
      rw [hd] at h
      simp only [Bool.and_eq_true, decide_eq_true_eq] at h
      exact ⟨d, rfl, h.1.1, h.1.2, h.2⟩
    | cons d2 rest2 =>
      rw [hd] at h
      cases h

theorem subtreeStored_node_intro (B : Nat) (cs : List CommentDoc) (i : Nat)
    (ts : List CTree) (d : CommentDoc) (hd : docsById i cs = [d])
    (hch : d.children = CTree.rootsOf ts) (hB : d.blog_id = B)
    (hf : forestStored B cs ts = true) :
    subtreeStored B cs (CTree.node i ts) = true := by
  unfold subtreeStored
  rw [hd]
  simp only [Bool.and_eq_true, decide_eq_true_eq]
  exact ⟨⟨hch, hB⟩, hf⟩

theorem subtreeStored_congr (B : Nat) : ∀ t : CTree, ∀ A A2 : List CommentDoc,
    (∀ q ∈ t.ids, docsById q A2 = docsById q A) →
    subtreeStored B A t = true → subtreeStored B A2 t = true := by
  apply strongInd (fun t => ∀ A A2 : List CommentDoc,
    (∀ q ∈ t.ids, docsById q A2 = docsById q A) →
    subtreeStored B A t = true → subtreeStored B A2 t = true)
  intro i ts hIH A A2 hq h
  obtain ⟨d, hd, hch, hB, hf⟩ := subtreeStored_node B A i ts h
  apply subtreeStored_node_intro B A2 i ts d _ hch hB
  · apply forestStored_of_forall
    intro u hu
    apply hIH u hu A A2
    · intro q hqu
      exact hq q (by
        rw [ids_node]
        exact List.mem_cons_of_mem i (idsList_subset u ts hu hqu))
    · exact forestStored_mem B A ts hf u hu
  · rw [hq i (by rw [ids_node]; exact List.mem_cons_self _ _), hd]

theorem forestStored_transport (B : Nat) (ts : List CTree)
    (A A2 : List CommentDoc)
    (hq : ∀ q ∈ CTree.idsList ts, docsById q A2 = docsById q A)
    (h : forestStored B A ts = true) : forestStored B A2 ts = true := by
  apply forestStored_of_forall
  intro u hu
  apply subtreeStored_congr B u A A2
  · intro q hqu
    exact hq q (idsList_subset u ts hu hqu)
  · exact forestStored_mem B A ts h u hu

theorem stored_doc_props (B : Nat) : ∀ t : CTree, ∀ cs : List CommentDoc,
    subtreeStored B cs t = true →
    ∀ q ∈ t.ids, ∃ d, docsById q cs = [d] ∧ (∀ x ∈ d.children, x ∈ t.ids)
      ∧ d.blog_id = B := by
  apply strongInd (fun t => ∀ cs : List CommentDoc,
    subtreeStored B cs t = true →
    ∀ q ∈ t.ids, ∃ d, docsById q cs = [d] ∧ (∀ x ∈ d.children, x ∈ t.ids)
      ∧ d.blog_id = B)
  intro i ts hIH cs hst q hq
  obtain ⟨d, hd, hch, hB, hf⟩ := subtreeStored_node B cs i ts hst
  rw [ids_node] at hq
  rcases List.mem_cons.mp hq with rfl | hmem
  · refine ⟨d, hd, ?_, hB⟩
    intro x hx
    rw [hch] at hx
    rw [ids_node]
    apply List.mem_cons_of_mem
    obtain ⟨u, hu, rfl⟩ := List.mem_map.mp hx
    exact idsList_subset u ts hu (root_mem_ids u)
  · obtain ⟨u, hu, hqu⟩ := mem_idsList q ts hmem
    obtain ⟨du, hdu, hduch, hduB⟩ :=
      hIH u hu cs (forestStored_mem B cs ts hf u hu) q hqu
    refine ⟨du, hdu, ?_, hduB⟩
    intro x hx
    rw [ids_node]
    exact List.mem_cons_of_mem i (idsList_subset u ts hu (hduch x hx))

/-! Effects of the cascade on the comment and blog collections. -/

theorem docsById_removeFirst_ne (i q : Nat) (l : List CommentDoc) (hqi : q ≠ i) :
    docsById q (removeFirst (fun x => x._id = i) l) = docsById q l := by
  unfold docsById
  apply filter_removeFirst_of_disj
  intro a ha
  simp only [decide_eq_true_eq] at ha
  simp only [ha, decide_eq_false_iff_not]
  exact fun h => hqi h.symm

theorem docsById_updateFirst_ne (p q : Nat) (f : CommentDoc → CommentDoc)
    (l : List CommentDoc) (hf : ∀ a, (f a)._id = a._id) (hqp : q ≠ p) :
    docsById q (updateFirst (fun x => x._id = p) f l) = docsById q l := by
  unfold docsById
  apply filter_updateFirst_of_disj
  · intro a ha
    simp only [decide_eq_true_eq] at ha
    simp only [ha, decide_eq_false_iff_not]
    exact fun h => hqp h.symm
  · intro a
    simp [hf a]

theorem docsById_eq_nil_iff (i : Nat) (l : List CommentDoc) :
    docsById i l = [] ↔ l.countP (fun x => x._id = i) = 0 := by
  rw [List.countP_eq_length_filter]
  show docsById i l = [] ↔ (docsById i l).length = 0
  exact List.length_eq_zero.symm

theorem docsById_updateFirst_children_fix (q j : Nat) (l : List CommentDoc)
    (hch : ∀ a ∈ docsById q l, j ∉ a.children) :
    updateFirst (fun x => x._id = q)
      (fun x => { x with children := x.children.filter (fun y => y ≠ j) }) l = l := by
  apply updateFirst_eq_self
  intro a ha hpa
  have haq : a._id = q := by simpa using hpa
  have haf : a ∈ docsById q l :=
    List.mem_filter.mpr ⟨ha, by simpa using haq⟩
  have hft : a.children.filter (fun y => y ≠ j) = a.children := by
    apply List.filter_eq_self.mpr
    intro x hx
    simp only [decide_eq_true_eq]
    exact fun h => hch a haf (h ▸ hx)
  show { a with children := a.children.filter (fun y => y ≠ j) } = a
  rw [hft]

theorem delEffects_comp (B : Nat) (S1 S2 : List Nat) (k1 k2 : Nat)
    (db db1 db2 : DB)
    (e1 : delEffects B S1 k1 db db1) (e2 : delEffects B S2 k2 db1 db2)
    (hdisj : ∀ x ∈ S1, x ∉ S2) :
    delEffects B (S1 ++ S2) (k1 + k2) db db2 := by
  obtain ⟨l1, g1, z1, t1⟩ := e1
  obtain ⟨l2, g2, z2, t2⟩ := e2
  refine ⟨by omega, ?_, ?_, ?_⟩
  · intro q hq hch
    have hq1 : q ∉ S1 := fun h => hq (List.mem_append.mpr (Or.inl h))
    have hq2 : q ∉ S2 := fun h => hq (List.mem_append.mpr (Or.inr h))
    have hch1 : ∀ d ∈ docsById q db.comments, ∀ x ∈ d.children, x ∉ S1 :=
      fun d hd x hx h => hch d hd x hx (List.mem_append.mpr (Or.inl h))
    have hp1 : docsById q db1.comments = docsById q db.comments := g1 q hq1 hch1
    have hch2 : ∀ d ∈ docsById q db1.comments, ∀ x ∈ d.children, x ∉ S2 := by
      rw [hp1]
      exact fun d hd x hx h => hch d hd x hx (List.mem_append.mpr (Or.inr h))
    rw [g2 q hq2 hch2, hp1]
  · intro i hi
    rcases List.mem_append.mp hi with h | h
    · have hz := z1 i h
      have hi2 : i ∉ S2 := hdisj i h
      have hch2 : ∀ d ∈ docsById i db1.comments, ∀ x ∈ d.children, x ∉ S2 := by
        rw [hz]
        intro d hd
        cases hd
      rw [g2 i hi2 hch2, hz]
    · exact z2 i h
  · rw [t2, t1, Option.map_map]
    cases tcOf B db with
    | none => rfl
    | some v =>
      show some (v - (k1 : Int) - (k2 : Int)) = some (v - ((k1 + k2 : Nat) : Int))
      congr 1
      push_cast
      ring

theorem deleteOneComment_comments_none (c : CommentDoc) (db : DB)
    (h : c.parent = none) : (deleteOneComment c db).comments = db.comments := by
  unfold deleteOneComment
  rw [h]

theorem deleteOneComment_comments_some (c : CommentDoc) (db : DB) (p : Nat)
    (h : c.parent = some p) :
    (deleteOneComment c db).comments =
      updateFirst (fun x => x._id = p)
        (fun x => { x with children := x.children.filter (fun y => y ≠ c._id) })
        db.comments := by
  unfold deleteOneComment
  rw [h]

theorem deleteOneComment_blogs (c : CommentDoc) (db : DB) :
    (deleteOneComment c db).blogs =
      updateFirst (fun b => b._id = c.blog_id)
        (fun b =>
          { b with
            comments := b.comments.filter (fun x => x ≠ c._id),
            activity :=
              { b.activity with
                total_comments := b.activity.total_comments - 1,
                total_parent_comments := if c.parent.isSome then 0 else -1 } })
        db.blogs := by
  unfold deleteOneComment
  cases c.parent <;> rfl

theorem delEffects_step (B i : Nat) (d : CommentDoc) (db : DB)
    (hd : docsById i db.comments = [d]) (hB : d.blog_id = B) :
    delEffects B [i] 1 db
      (deleteOneComment d
        { db with comments := removeFirst (fun x => x._id = i) db.comments }) := by
  have hdmem : d ∈ docsById i db.comments := by
    rw [hd]
    exact List.mem_cons_self _ _
  have hdi : d._id = i := by
    have h := List.of_mem_filter hdmem
    simpa using h
  have hdmem2 : d ∈ db.comments := List.mem_of_mem_filter hdmem
  have hexists : ∃ a ∈ db.comments, (fun x => decide (x._id = i)) a = true :=
    ⟨d, hdmem2, by simpa using hdi⟩
  have hcnt1 : db.comments.countP (fun x => x._id = i) = 1 := by
    rw [List.countP_eq_length_filter]
    show (docsById i db.comments).length = 1
    rw [hd]
    rfl
  refine ⟨?_, ?_, ?_, ?_⟩
  · -- one comment document disappears
    cases hp : d.parent with
    | none =>
      rw [deleteOneComment_comments_none d _ hp]
      dsimp only
      exact length_removeFirst_of_pos _ _ hexists
    | some p =>
      rw [deleteOneComment_comments_some d _ p hp]
      dsimp only
      rw [length_updateFirst]
      exact length_removeFirst_of_pos _ _ hexists
  · -- documents outside the subtree whose children avoid it are untouched
    intro q hq hch
    have hqi : q ≠ i := by
      intro h
      exact hq (by rw [h]; exact List.mem_cons_self _ _)
    have h1 : docsById q (removeFirst (fun x => x._id = i) db.comments) =
        docsById q db.comments := docsById_removeFirst_ne i q _ hqi
    cases hp : d.parent with
    | none =>
      rw [deleteOneComment_comments_none d _ hp]
      dsimp only
      exact h1
    | some p =>
      rw [deleteOneComment_comments_some d _ p hp]
      dsimp only
      by_cases hqp : q = p
      · subst hqp
        have hfix := docsById_updateFirst_children_fix q d._id
          (removeFirst (fun x => x._id = i) db.comments) (by
            intro a ha
            rw [h1] at ha
            rw [hdi]
            intro hmem
            exact hch a ha i hmem (List.mem_cons_self i []))
        rw [hfix]
        exact h1
      · rw [docsById_updateFirst_ne p q _ _ (by intro a; rfl) hqp]
        exact h1
  · -- the deleted document is gone
    intro i2 hi2
    have hii : i2 = i := by simpa using hi2
    subst hii
    have hc0 : (removeFirst (fun x => x._id = i2) db.comments).countP
        (fun x => x._id = i2) = 0 := by
      rw [countP_removeFirst_self, hcnt1]
    cases hp : d.parent with
    | none =>
      rw [deleteOneComment_comments_none d _ hp]
      dsimp only
      exact (docsById_eq_nil_iff _ _).mpr hc0
    | some p =>
      rw [deleteOneComment_comments_some d _ p hp]
      dsimp only
      apply (docsById_eq_nil_iff _ _).mpr
      rw [countP_updateFirst _ _ _ _ (by intro a; simp)]
      exact hc0
  · -- the owning blog loses one from total_comments
    unfold tcOf
    rw [deleteOneComment_blogs]
    dsimp only
    rw [hB]
    rw [find?_updateFirst _ _ _ (by intro b; rfl)]
    cases hf : db.blogs.find? (fun b => b._id = B) with
    | none => rfl
    | some b => rfl

theorem delEffects_nil (B : Nat) (db : DB) : delEffects B [] 0 db db := by
  refine ⟨by omega, fun q hq hch => rfl,
    fun i hi => absurd hi (List.not_mem_nil i), ?_⟩
  cases h : tcOf B db with
  | none => rfl
  | some v =>
    show some v = some (v - ((0 : Nat) : Int))
    congr 1
    simp

theorem delEffects_forest (B fuel : Nat) :
    ∀ ts : List CTree,
    (∀ u ∈ ts, ∀ db : DB, u.size ≤ fuel → u.ids.Nodup →
      subtreeStored B db.comments u = true →
      delEffects B u.ids u.size db (deleteCommentsFuel fuel u.root db)) →
    ∀ db : DB, (∀ u ∈ ts, u.size ≤ fuel) → (CTree.idsList ts).Nodup →
    forestStored B db.comments ts = true →
    delEffects B (CTree.idsList ts) (CTree.sizeList ts) db
      (delList fuel (CTree.rootsOf ts) db) := by
  intro ts
  induction ts with
  | nil =>
    intro _ db _ _ _
    exact delEffects_nil B db
  | cons u us ih =>
    intro hP db hfuel hnd hfs
    rw [idsList_cons] at hnd
    have hnd1 : u.ids.Nodup := (List.nodup_append.mp hnd).1
    have hnd2 : (CTree.idsList us).Nodup := (List.nodup_append.mp hnd).2.1
    have hdisj : ∀ x ∈ u.ids, x ∉ CTree.idsList us := by
      have hD := (List.nodup_append.mp hnd).2.2
      exact fun x hx hx2 => hD hx hx2
    have hsu : subtreeStored B db.comments u = true :=
      forestStored_mem B db.comments (u :: us) hfs u (List.mem_cons_self u us)
    have e1 := hP u (List.mem_cons_self u us) db
      (hfuel u (List.mem_cons_self u us)) hnd1 hsu
    have hqpres : ∀ q ∈ CTree.idsList us,
        docsById q (deleteCommentsFuel fuel u.root db).comments =
          docsById q db.comments := by
      intro q hq
      obtain ⟨w, hw, hqw⟩ := mem_idsList q us hq
      have hsw : subtreeStored B db.comments w = true :=
        forestStored_mem B db.comments (u :: us) hfs w (List.mem_cons_of_mem u hw)
      obtain ⟨dq, hdq, hdqch, _⟩ := stored_doc_props B w db.comments hsw q hqw
      apply e1.2.1 q
      · exact fun hqu => hdisj q hqu hq
      · intro dd hdd x hx hxu
        rw [hdq] at hdd
        have hddq : dd = dq := by simpa using hdd
        subst hddq
        exact hdisj x hxu (idsList_subset w us hw (hdqch x hx))
    have hfsus : forestStored B db.comments us = true :=
      forestStored_of_forall _ _ _ (fun w hw =>
        forestStored_mem B db.comments (u :: us) hfs w (List.mem_cons_of_mem u hw))
    have hfs1 : forestStored B (deleteCommentsFuel fuel u.root db).comments us = true :=
      forestStored_transport B us db.comments _ hqpres hfsus
    have e2 := ih (fun w hw db2 h1 h2 h3 => hP w (List.mem_cons_of_mem u hw) db2 h1 h2 h3)
      (deleteCommentsFuel fuel u.root db)
      (fun w hw => hfuel w (List.mem_cons_of_mem u hw)) hnd2 hfs1
    have hcomp := delEffects_comp B u.ids (CTree.idsList us) u.size
      (CTree.sizeList us) db _ _ e1 e2 hdisj
    rw [idsList_cons, sizeList_cons, rootsOf_cons]
    exact hcomp

theorem deleteCommentsFuel_tree (B : Nat) : ∀ t : CTree, ∀ (db : DB) (fuel : Nat),
    t.size ≤ fuel → t.ids.Nodup → subtreeStored B db.comments t = true →
    delEffects B t.ids t.size db (deleteCommentsFuel fuel t.root db) := by
  apply strongInd (fun t => ∀ (db : DB) (fuel : Nat),
    t.size ≤ fuel → t.ids.Nodup → subtreeStored B db.comments t = true →
    delEffects B t.ids t.size db (deleteCommentsFuel fuel t.root db))
  intro i ts hIH db fuel hfuel hnd hst
  obtain ⟨d, hd, hch, hB, hf⟩ := subtreeStored_node B db.comments i ts hst
  obtain ⟨f, rfl⟩ : ∃ f, fuel = f + 1 := ⟨fuel - 1, by
    have h1 := size_pos (CTree.node i ts)
    omega⟩
  have hfind : db.comments.find? (fun x => x._id = i) = some d := by
    rw [find?_eq_head_filter]
    show (docsById i db.comments).head? = some d
    rw [hd]
    rfl
  have hstep : deleteCommentsFuel (f + 1) (CTree.node i ts).root db =
      delList f d.children
        (deleteOneComment d
          { db with comments := removeFirst (fun x => x._id = i) db.comments }) := by
    show deleteCommentsFuel (f + 1) i db = _
    unfold deleteCommentsFuel
    rw [hfind]
    rfl
  rw [hstep, hch]
  have e1 := delEffects_step B i d db hd hB
  have hnd2 := hnd
  rw [ids_node] at hnd2
  have hndi : i ∉ CTree.idsList ts := (List.nodup_cons.mp hnd2).1
  have hndts : (CTree.idsList ts).Nodup := (List.nodup_cons.mp hnd2).2
  have hqpres : ∀ q ∈ CTree.idsList ts,
      docsById q (deleteOneComment d
        { db with comments := removeFirst (fun x => x._id = i) db.comments }).comments =
        docsById q db.comments := by
    intro q hq
    obtain ⟨w, hw, hqw⟩ := mem_idsList q ts hq
    obtain ⟨dq, hdq, hdqch, _⟩ := stored_doc_props B w db.comments
      (forestStored_mem B db.comments ts hf w hw) q hqw
    apply e1.2.1 q
    · intro hmem
      have hqi : q = i := by simpa using hmem
      exact hndi (hqi ▸ hq)
    · intro dd hdd x hx hxmem
      have hxi : x = i := by simpa using hxmem
      rw [hdq] at hdd
      have hddq : dd = dq := by simpa using hdd
      subst hddq
      exact hndi (hxi ▸ idsList_subset w ts hw (hdqch x hx))
  have hfs1 : forestStored B (deleteOneComment d
      { db with comments := removeFirst (fun x => x._id = i) db.comments }).comments
      ts = true :=
    forestStored_transport B ts db.comments _ hqpres hf
  have hfuel2 : ∀ u ∈ ts, u.size ≤ f := by
    intro u hu
    have h1 := size_le_sizeList_of_mem u ts hu
    rw [size_node] at hfuel
    omega
  have e2 := delEffects_forest B f ts
    (fun u hu db2 h1 h2 h3 => hIH u hu db2 f h1 h2 h3) _ hfuel2 hndts hfs1
  have hcomp := delEffects_comp B [i] (CTree.idsList ts) 1 (CTree.sizeList ts)
    db _ _ e1 e2 (by
      intro x hx
      have hxi : x = i := by simpa using hx
      subst hxi
      exact hndi)
  rw [ids_node, size_node]
  exact hcomp

theorem stored_size_le (B : Nat) (t : CTree) (cs : List CommentDoc)
    (hnd : t.ids.Nodup) (hst : subtreeStored B cs t = true) :
    t.size ≤ cs.length := by
  have hsub : t.ids ⊆ cs.map (fun c => c._id) := by
    intro q hq
    obtain ⟨dq, hdq, _, _⟩ := stored_doc_props B t cs hst q hq
    have hmemf : dq ∈ docsById q cs := by
      rw [hdq]
      exact List.mem_cons_self _ _
    have hm : dq ∈ cs := List.mem_of_mem_filter hmemf
    have hid : dq._id = q := by
      have h := List.of_mem_filter hmemf
      simpa using h
    exact List.mem_map.mpr ⟨dq, hm, hid⟩
  have h1 : t.ids.length ≤ (cs.map (fun c => c._id)).length :=
    (List.subperm_of_subset hnd hsub).length_le
  rw [ids_length t, List.length_map] at h1
  exact h1

/-- C2: deleting a comment whose stored subtree is t (the comment plus its N
transitive descendants, N + 1 = size of t) removes exactly size-of-t comment
documents — the count drops by that much and every subtree id is gone — and
decrements the owning blog activity.total_comments by exactly size of t. -/
theorem deleteComments_removes_subtree (t : CTree) (db : DB) (B : Nat)
    (b0 : BlogDoc) (hnd : t.ids.Nodup)
    (hst : subtreeStored B db.comments t = true)
    (hb : db.blogs.find? (fun b => b._id = B) = some b0) :
    (deleteComments t.root db).comments.length + t.size = db.comments.length
    ∧ (∀ i ∈ t.ids, docsById i (deleteComments t.root db).comments = [])
    ∧ tcOf B (deleteComments t.root db) =
      some (b0.activity.total_comments - (t.size : Int)) := by
  have hle : t.size ≤ db.comments.length := stored_size_le B t db.comments hnd hst
  have h := deleteCommentsFuel_tree B t db db.comments.length hle hnd hst
  refine ⟨h.1, h.2.2.1, ?_⟩
  have htc := h.2.2.2
  show tcOf B (deleteCommentsFuel db.comments.length t.root db) = _
  rw [htc]
  unfold tcOf
  rw [hb]
  rfl

/-- Witness for C2 on exDb2: the chain 10 - 11 - 12 (N = 2 descendants) is
removed as 3 documents and total_comments drops from 7 to 4. -/
theorem deleteComments_removes_subtree_witness :
    ((CTree.ids exTree2).Nodup
      ∧ subtreeStored 1 exDb2.comments exTree2 = true
      ∧ exDb2.blogs.find? (fun b => b._id = 1) =
        some { _id := 1, blog_id := "b", author := 2, comments := [10, 11, 12, 13],
               activity := { total_comments := 7, total_parent_comments := 3 } })
    ∧ (deleteComments (CTree.root exTree2) exDb2).comments.length
        + CTree.size exTree2 = exDb2.comments.length
    ∧ docsById 12 (deleteComments (CTree.root exTree2) exDb2).comments = []
    ∧ tcOf 1 (deleteComments (CTree.root exTree2) exDb2) = some 4 := by
  refine ⟨⟨by decide, by decide, by decide⟩, ?_, ?_, ?_⟩
  · exact (deleteComments_removes_subtree exTree2 exDb2 1
      { _id := 1, blog_id := "b", author := 2, comments := [10, 11, 12, 13],
        activity := { total_comments := 7, total_parent_comments := 3 } }
      (by decide) (by decide) (by decide)).1
  · exact (deleteComments_removes_subtree exTree2 exDb2 1
      { _id := 1, blog_id := "b", author := 2, comments := [10, 11, 12, 13],
        activity := { total_comments := 7, total_parent_comments := 3 } }
      (by decide) (by decide) (by decide)).2.1 12 (by decide)
  · exact (deleteComments_removes_subtree exTree2 exDb2 1
      { _id := 1, blog_id := "b", author := 2, comments := [10, 11, 12, 13],
        activity := { total_comments := 7, total_parent_comments := 3 } }
      (by decide) (by decide) (by decide)).2.2

end BlogServer
